import Mathlib

/-!
Shallow embedding of `cf_turnstile_bypass.py` (class `TurnstileSolver` and its
configuration `TurnstileConfig`).

External collaborators (the DrissionPage browser engine: `ChromiumPage`,
element lookup, clicking, `wait.deleted`, `cookies`) are modelled as oracles:
every external call's outcome is a field of an environment record
(`AttemptEnv` / `SolveEnv`), carrying either a returned value or a raised
Python exception (`PyErr`).  The control flow around those calls — the
try/except structure, the retry loops, the cache and lock handling, the
status assignments — is translated line by line from the source.

Times are modelled as integers (seconds); `datetime.now()` readings taken at
the distinct observation points of `solve` are passed in explicitly.
-/

namespace CFTurnstile

/-- Python exception values that flow through the solver.  `turnstile`,
`verification` and `turnstileTimeout` are the classes defined in the source
(`TurnstileError`, `TurnstileVerificationError`, `TurnstileTimeoutError`);
`asyncTimeout` is `asyncio.TimeoutError`; `other` is any other exception,
identified by its `str()`. -/
inductive PyErr where
  | turnstile (msg : String)
  | verification (msg : String)
  | turnstileTimeout (msg : String)
  | asyncTimeout
  | other (msg : String)
deriving DecidableEq, Repr

/-- Python `str(e)` for the exceptions we model (`str` of an
`asyncio.TimeoutError()` raised bare is the empty string). -/
def pyStr : PyErr → String
  | .turnstile m => m
  | .verification m => m
  | .turnstileTimeout m => m
  | .asyncTimeout => ""
  | .other m => m

/-- The fields of `TurnstileConfig` that the modelled control flow reads.
Logging, screenshot and browser-path options only produce side output and are
omitted; defaults are the source's defaults. -/
structure TurnstileConfig where
  max_attempts : Nat := 10
  click_max_attempts : Nat := 5
  wait_time : Int := 1
  verify_timeout : Int := 10
  headers_output_path : Option String := none
  default_headers : List (String × String) := [
    ("accept", "*/*"),
    ("accept-language", "zh-CN,zh;q=0.9,en;q=0.8"),
    ("sec-ch-ua", "\"Chromium\";v=\"112\", \"Google Chrome\";v=\"112\", \"Not:A-Brand\";v=\"99\""),
    ("sec-ch-ua-mobile", "?0"),
    ("sec-ch-ua-platform", "\"Windows\""),
    ("sec-fetch-dest", "empty"),
    ("sec-fetch-mode", "cors"),
    ("sec-fetch-site", "same-origin")]
  proxy : Option String := none
  max_concurrent_tasks : Nat := 3
  cache_timeout : Int := 300

/-! ## Cache key derivation (`_get_cache_key`, `_get_proxy_ip`) -/

/-- Suffix of `s` after the first occurrence of `sep`, if any
(the tail used by `re.search` once the literal `://` has matched). -/
def afterFirstSub (sep : List Char) : List Char → Option (List Char)
  | [] => if sep = [] then some [] else none
  | c :: rest =>
    if sep.isPrefixOf (c :: rest) then some ((c :: rest).drop sep.length)
    else afterFirstSub sep rest

/-- All suffixes of `s` that start right after an `'@'`, leftmost `'@'`
first. -/
def atSuffixes : List Char → List (List Char)
  | [] => []
  | c :: rest => (if c = '@' then [rest] else []) ++ atSuffixes rest

/-- Match `([^:]+):` at the start of `s`: a nonempty run of non-colon
characters followed by a colon; returns the captured run. -/
def matchHostColon (s : List Char) : Option (List Char) :=
  let pre := s.takeWhile (fun c => c ≠ ':')
  match s.drop pre.length with
  | ':' :: _ => if pre = [] then none else some pre
  | _ => none

/-- `_get_proxy_ip`: `re.search(r'://(?:.*@)?([^:]+):', proxy)`.
After the literal `://`, the greedy optional group `(?:.*@)?` tries the
suffix after the rightmost `'@'` first, backtracking leftwards, and finally
the empty group; the first candidate on which `([^:]+):` matches wins.
Python's `if not proxy` treats `None` and the empty string alike. -/
def get_proxy_ip (proxy : Option String) : Option String :=
  match proxy with
  | none => none
  | some p =>
    if p = "" then none
    else
      match afterFirstSub "://".toList p.toList with
      | none => none
      | some r =>
        (((atSuffixes r).reverse ++ [r]).findSome? matchHostColon).map
          fun cs => String.mk cs

/-- Scheme characters accepted by `urllib.parse` after the leading letter. -/
def isSchemeTailChar (c : Char) : Bool :=
  c.isAlphanum || c = '+' || c = '-' || c = '.'

/-- Split `cs` at its first occurrence of `c`. -/
def splitFirstChar (c : Char) : List Char → Option (List Char × List Char)
  | [] => none
  | d :: rest =>
    if d = c then some ([], rest)
    else (splitFirstChar c rest).map fun p => (d :: p.1, p.2)

/-- `urlparse(url).netloc`: strip a valid `scheme:` prefix, then, if the
remainder starts with `//`, take everything up to the first `/`, `?` or `#`;
otherwise the netloc is empty. -/
def urlparseNetloc (url : String) : String :=
  let cs := url.toList
  let rest :=
    match splitFirstChar ':' cs with
    | some (pre, post) =>
      match pre with
      | [] => cs
      | c :: tail => if c.isAlpha && tail.all isSchemeTailChar then post else cs
    | none => cs
  match rest with
  | '/' :: '/' :: r =>
    String.mk (r.takeWhile fun c => c ≠ '/' && c ≠ '?' && c ≠ '#')
  | _ => ""

/-- `urlparse(url).hostname`: the netloc after its last `'@'`, up to the
first `':'`, lowercased.  Used only to state the spec's notion of "host". -/
def urlHost (url : String) : String :=
  let nl := (urlparseNetloc url).toList
  let afterAt :=
    match (atSuffixes nl).reverse with
    | s :: _ => s
    | [] => nl
  String.mk ((afterAt.takeWhile fun c => c ≠ ':').map Char.toLower)

/-- `_get_cache_key`: `f"{hostname}:{proxy_ip if proxy_ip else 'direct'}"`
with `hostname = urlparse(url).netloc`. -/
def get_cache_key (url : String) (proxy_ip : Option String) : String :=
  urlparseNetloc url ++ ":" ++
    (match proxy_ip with
     | some ip => if ip = "" then "direct" else ip
     | none => "direct")

/-- The cache key `solve` computes for a url under a config. -/
def cacheKeyOf (cfg : TurnstileConfig) (url : String) : String :=
  get_cache_key url (get_proxy_ip cfg.proxy)

/-! ## Header extraction (`_extract_headers`) -/

/-- One record of `page.cookies(all_domains=False, all_info=False)`: a dict
that may or may not carry `'name'` and `'value'` keys. -/
structure Cookie where
  name : Option String
  value : Option String
deriving DecidableEq, Repr

/-- `dict` assignment `d[k] = v`: replace in place if the key exists,
else append. -/
def dictSet (d : List (String × String)) (k v : String) : List (String × String) :=
  if d.any (fun p => p.1 = k) then d.map fun p => if p.1 = k then (k, v) else p
  else d ++ [(k, v)]

/-- `dict.update` with the given key/value pairs, in order. -/
def dictUpdate (d upd : List (String × String)) : List (String × String) :=
  upd.foldl (fun acc p => dictSet acc p.1 p.2) d

/-- Lookup in a header dict. -/
def headerGet (d : List (String × String)) (k : String) : Option String :=
  (d.find? fun p => p.1 = k).map fun p => p.2

/-- The body of `_extract_headers`' list comprehension: the `name=value`
string for a record carrying both keys, nothing for a record the
comprehension's `if` clause rejects. -/
def cookiePair (c : Cookie) : Option String :=
  match c.name, c.value with
  | some n, some v => some (n ++ "=" ++ v)
  | _, _ => none

/-- `_extract_headers`, given the value returned by `page.cookies` (`none`
models a non-list result).  A non-list raises `TurnstileError`; list entries
lacking `'name'` or `'value'` are filtered out of the cookie string by the
comprehension's `if` clause. -/
def extract_headers (cfg : TurnstileConfig) (cookies : Option (List Cookie))
    (url user_agent : String) : Except PyErr (List (String × String)) :=
  match cookies with
  | none => .error (.turnstile "获取到的Cookies格式不正确")
  | some cs =>
    let cookie_str := String.intercalate "; " (cs.filterMap cookiePair)
    .ok (dictUpdate cfg.default_headers
      [("cookie", cookie_str), ("referer", url), ("user-agent", user_agent)])

/-- A cookie record carrying both fields, as the comprehension requires. -/
def Cookie.wellFormed (c : Cookie) : Bool :=
  c.name.isSome && c.value.isSome

/-! ## One verification attempt (`_handle_verification`) -/

/-- Oracle outcomes of the browser calls made by one `_handle_verification`
run.  `eles` is the whole iframe search (`page.eles('tag:div')` plus the
shadow-root scan): it either raises or reports whether a Cloudflare iframe
was found.  `verifyFound` is `ele(xpath, timeout=5)`: raised, or found /
falsy.  `click i` is the `i`-th `verify_element.click()`: `none` means the
click returned normally, `some msg` means it raised an exception with
`str(e) = msg`.  `waitDeleted` is `verify_element.wait.deleted(timeout=...)`:
either raised, or returned a Bool telling whether the element disappeared
before the deadline (DrissionPage returns `False` on a missed deadline unless
configured to raise). -/
structure AttemptEnv where
  eles : Except PyErr Bool
  body : Except PyErr Unit
  verifyFound : Except PyErr Bool
  click : Nat → Option String
  waitDeleted : Except PyErr Bool

/-- The click retry loop: `for click_attempt in range(click_max_attempts)`.
`fuel` is the number of iterations left (`click_max_attempts - i`); a
successful click breaks, a failure on the last iteration raises
`TurnstileVerificationError`, otherwise the loop sleeps and retries. -/
def clickLoop (click : Nat → Option String) : Nat → Nat → Except PyErr Unit
  | _, 0 => .ok ()
  | i, fuel + 1 =>
    match click i with
    | none => .ok ()
    | some m =>
      if fuel = 0 then .error (.verification ("验证按钮点击失败: " ++ m))
      else clickLoop click (i + 1) fuel

/-- The body of `_handle_verification`'s `try` block.  Note that the Bool
returned by `wait.deleted` is discarded exactly as in the source: only an
exception from it can prevent the `return True`. -/
def handleVerificationCore (cfg : TurnstileConfig) (env : AttemptEnv) :
    Except PyErr Bool :=
  match env.eles with
  | .error e => .error e
  | .ok false => .ok true
  | .ok true =>
    match env.body with
    | .error e => .error e
    | .ok _ =>
      match env.verifyFound with
      | .error e => .error e
      | .ok false => .error (.verification "无法找到验证按钮")
      | .ok true =>
        match clickLoop env.click 0 cfg.click_max_attempts with
        | .error e => .error e
        | .ok _ =>
          match env.waitDeleted with
          | .error e => .error e
          | .ok _ => .ok true

/-- The introspection fields of a `TurnstileSolver` instance. -/
structure SolverState where
  status : String := "initialized"
  last_error : Option PyErr := none
  verification_start_time : Option Int := none
deriving DecidableEq, Repr

/-- `_handle_verification`: sets `_status = "verifying"`, then runs the
`try` body; any exception is caught, recorded in `_last_error`, and turned
into `False`.  No exception escapes this method. -/
def handle_verification (cfg : TurnstileConfig) (env : AttemptEnv)
    (st : SolverState) : Bool × SolverState :=
  let st := { st with status := "verifying" }
  match handleVerificationCore cfg env with
  | .ok b => (b, st)
  | .error e => (false, { st with last_error := some e })

/-! ## `_solve_internal` -/

/-- Oracle outcomes of the browser calls made directly by `_solve_internal`:
opening the page (ChromiumPage construction, screencast setup, `page.get`),
the per-attempt environments, `page.cookies()` (`ok none` models a non-list
result), and the optional `Path(...).write_text` of the headers file. -/
structure SolveEnv where
  pageOpen : Except PyErr Unit
  attempt : Nat → AttemptEnv
  cookies : Except PyErr (Option (List Cookie))
  writeHeaders : Except PyErr Unit

/-- The `for attempt in range(max_attempts)` loop of `_solve_internal`,
still inside the `try`: each iteration runs `_handle_verification`; on
success it extracts headers, sets `_status = "success"`, optionally writes
the headers file, and returns; otherwise it sleeps and retries.  Falling off
the loop sets `_status = "failed"` and raises `TurnstileError`.  `fuel` is
the number of iterations left (`max_attempts - i`).  The third component
counts how many attempts ran. -/
def attemptLoop (cfg : TurnstileConfig) (env : SolveEnv) (url user_agent : String) :
    SolverState → Nat → Nat →
    Except PyErr (List (String × String)) × SolverState × Nat
  | st, i, 0 =>
    (.error (.turnstile "达到最大尝试次数，验证失败"),
     { st with status := "failed" }, i)
  | st, i, fuel + 1 =>
    match handle_verification cfg (env.attempt i) st with
    | (true, st') =>
      match env.cookies with
      | .error e => (.error e, st', i + 1)
      | .ok cookieVal =>
        match extract_headers cfg cookieVal url user_agent with
        | .error e => (.error e, st', i + 1)
        | .ok headers =>
          let st'' := { st' with status := "success" }
          match cfg.headers_output_path with
          | some p =>
            if p = "" then (.ok headers, st'', i + 1)
            else
              match env.writeHeaders with
              | .error e => (.error e, st'', i + 1)
              | .ok _ => (.ok headers, st'', i + 1)
          | none => (.ok headers, st'', i + 1)
    | (false, st') => attemptLoop cfg env url user_agent st' (i + 1) fuel

/-- `_solve_internal`: records the start time, sets `_status = "starting"`,
runs the `try` body (page open, then the attempt loop), and classifies any
exception through the `except` chain: `asyncio.TimeoutError` becomes
`_status = "timeout"` and a `TurnstileTimeoutError`; every other exception —
including the solver's own attempts-exhausted `TurnstileError` raised inside
the `try` — becomes `_status = "error"`, is recorded in `_last_error`, and is
re-raised wrapped in a fresh `TurnstileError`. -/
def solve_internal (cfg : TurnstileConfig) (env : SolveEnv)
    (url user_agent : String) (start_time : Int) (st : SolverState) :
    Except PyErr (List (String × String)) × SolverState × Nat :=
  let st := { st with verification_start_time := some start_time,
                      status := "starting" }
  let r :=
    match env.pageOpen with
    | .error e => (Except.error e, st, 0)
    | .ok _ => attemptLoop cfg env url user_agent st 0 cfg.max_attempts
  match r with
  | (.ok h, st', n) => (.ok h, st', n)
  | (.error .asyncTimeout, st', n) =>
    (.error (.turnstileTimeout "页面加载或验证超时"),
     { st' with status := "timeout" }, n)
  | (.error e, st', n) =>
    (.error (.turnstile ("验证过程发生错误: " ++ pyStr e)),
     { st' with status := "error", last_error := some e }, n)

/-! ## `solve`: cache, lock, semaphore, internal solve -/

/-- One cache record: `{'headers': headers, 'timestamp': timestamp}`. -/
structure CacheEntry where
  headers : List (String × String)
  timestamp : Int
deriving DecidableEq, Repr

/-- The class-level shared state of `TurnstileSolver`: the headers cache and
the set of keys for which a lock object has been created. -/
structure GlobalState where
  cache : String → Option CacheEntry
  locks : List String

/-- The part of `solve` from lock acquisition onward: create the lock entry
if missing, re-check the cache under the lock, and otherwise run
`_solve_internal` under the semaphore, writing the cache only when it
returns headers.  The final Bool records whether the browser layer
(`_solve_internal`) was entered. -/
def solveLocked (cfg : TurnstileConfig) (env : SolveEnv)
    (url user_agent : String) (key : String) (tRecheck tStart tWrite : Int)
    (g : GlobalState) (st : SolverState) :
    Except PyErr (List (String × String)) × GlobalState × SolverState × Bool :=
  let g := { g with locks := if key ∈ g.locks then g.locks else key :: g.locks }
  let cachedFresh :=
    match g.cache key with
    | some e => if tRecheck - e.timestamp < cfg.cache_timeout then some e else none
    | none => none
  match cachedFresh with
  | some e => (.ok e.headers, g, st, false)
  | none =>
    match solve_internal cfg env url user_agent tStart st with
    | (.ok h, st', _) =>
      (.ok h,
       { g with cache := fun k =>
          if k = key then some { headers := h, timestamp := tWrite }
          else g.cache k },
       st', true)
    | (.error e, st', _) => (.error e, g, st', true)

/-- `solve(url, user_agent)`: compute the cache key, try the unlocked
fast-path cache read (a fresh entry returns immediately, touching neither
the solver state nor the shared maps), then fall through to the locked
path.  `tFast`, `tRecheck`, `tWrite` are the `datetime.now()` readings at
the fast-path check, the in-lock re-check, and the cache write; `tStart` is
`_solve_internal`'s start time. -/
def solve (cfg : TurnstileConfig) (env : SolveEnv) (url user_agent : String)
    (tFast tRecheck tStart tWrite : Int) (g : GlobalState) (st : SolverState) :
    Except PyErr (List (String × String)) × GlobalState × SolverState × Bool :=
  let key := cacheKeyOf cfg url
  let fastHit :=
    match g.cache key with
    | some e => if tFast - e.timestamp < cfg.cache_timeout then some e else none
    | none => none
  match fastHit with
  | some e => (.ok e.headers, g, st, false)
  | none => solveLocked cfg env url user_agent key tRecheck tStart tWrite g st

/-! ## Concurrency model for the semaphore bound

`TurnstileSolver` declares `_semaphore` at class scope, but `__init__`
executes `self._semaphore = asyncio.Semaphore(self.config.max_concurrent_tasks)`,
which creates an *instance* attribute: every constructed solver carries its
own semaphore of capacity `max_concurrent_tasks`.  The `_locks` map, by
contrast, is mutated in place (`self._locks[cache_key] = ...`) and so stays
class-level and shared.  The transition system below models several solver
instances running `solve` concurrently: a browser-driving run starts by
holding the (shared) per-key lock and acquiring a permit from the solver's
own semaphore, and ends by releasing both. -/

/-- One constructed `TurnstileSolver`: its semaphore capacity
(`config.max_concurrent_tasks` at `__init__` time) and the number of permits
of its own semaphore currently held. -/
structure SolverInstance where
  cap : Nat
  semCount : Nat
deriving DecidableEq, Repr

/-- Global snapshot: the solver instances in the process and the set of
cache keys whose (shared, class-level) lock is currently held. -/
structure SysState where
  instances : List SolverInstance
  lockHeld : List String
deriving DecidableEq, Repr

/-- Scheduler events: instance `i` starts a browser-driving run for `key`
(requires the shared per-key lock to be free and a permit available on
instance `i`'s own semaphore), or finishes one (releasing both). -/
inductive SysStep where
  | start (i : Nat) (key : String)
  | finish (i : Nat) (key : String)
deriving DecidableEq, Repr

/-- Execute one scheduler event; `none` when the event is not enabled. -/
def stepExec (s : SysState) : SysStep → Option SysState
  | .start i key =>
    match s.instances.get? i with
    | none => none
    | some inst =>
      if key ∈ s.lockHeld then none
      else if inst.semCount < inst.cap then
        some { instances := s.instances.set i { inst with semCount := inst.semCount + 1 },
               lockHeld := key :: s.lockHeld }
      else none
  | .finish i key =>
    match s.instances.get? i with
    | none => none
    | some inst =>
      if key ∈ s.lockHeld then
        if 0 < inst.semCount then
          some { instances := s.instances.set i { inst with semCount := inst.semCount - 1 },
                 lockHeld := s.lockHeld.erase key }
        else none
      else none

/-- Run a sequence of scheduler events. -/
def execTrace : SysState → List SysStep → Option SysState
  | s, [] => some s
  | s, step :: rest =>
    match stepExec s step with
    | none => none
    | some s' => execTrace s' rest

/-- The process state right after constructing one solver per config:
each `__init__` builds a fresh instance-level semaphore with capacity
`config.max_concurrent_tasks` and zero permits held. -/
def initFromConfigs (cfgs : List TurnstileConfig) : SysState :=
  { instances := cfgs.map fun c => { cap := c.max_concurrent_tasks, semCount := 0 },
    lockHeld := [] }

/-- Total number of browser-driving runs active in the process. -/
def activeTotal (s : SysState) : Nat :=
  (s.instances.map fun inst => inst.semCount).sum

/-! ## Shared concrete fixtures for witnesses -/

/-- A header set as stored in a pre-existing cache entry. -/
def hdrsW : List (String × String) :=
  [("cookie", "cf_clearance=tok"), ("referer", "https://a.example/x"),
   ("user-agent", "UA")]

/-- A cache entry written at time 0. -/
def entryW : CacheEntry := { headers := hdrsW, timestamp := 0 }

/-- A global state holding a single cache entry for `a.example:direct`. -/
def gFreshW : GlobalState :=
  { cache := fun k => if k = "a.example:direct" then some entryW else none,
    locks := [] }

/-- The empty global state: no cache entries, no lock objects. -/
def gEmptyW : GlobalState := { cache := fun _ => none, locks := [] }

/-- An environment whose first attempt finds no challenge iframe. -/
def envIdleW : SolveEnv :=
  { pageOpen := .ok (),
    attempt := fun _ =>
      { eles := .ok false, body := .ok (), verifyFound := .ok false,
        click := fun _ => none, waitDeleted := .ok true },
    cookies := .ok (some []),
    writeHeaders := .ok () }

/-! ## C1 — fresh cache entry: fast path, no browser -/

/-- Claim C1: if a fresh cache entry exists for the key of `url` when
`solve` is called (its age at the fast-path check is below
`cache_timeout`), then `solve` returns that entry's headers, leaves the
shared state untouched, and never enters the browser layer. -/
theorem solve_fresh_cache_fast_path
    (cfg : TurnstileConfig) (env : SolveEnv) (url ua : String)
    (tFast tRecheck tStart tWrite : Int) (g : GlobalState) (st : SolverState)
    (e : CacheEntry)
    (hcache : g.cache (cacheKeyOf cfg url) = some e)
    (hfresh : tFast - e.timestamp < cfg.cache_timeout) :
    solve cfg env url ua tFast tRecheck tStart tWrite g st =
      (.ok e.headers, g, st, false) := by
  simp only [solve, hcache, if_pos hfresh]

/-- Witness for C1 at a concrete configuration and cache. -/
theorem solve_fresh_cache_fast_path_witness :
    solve {} envIdleW "https://a.example/x" "UA" 10 10 10 10 gFreshW {} =
      (.ok entryW.headers, gFreshW, {}, false) :=
  solve_fresh_cache_fast_path {} envIdleW "https://a.example/x" "UA"
    10 10 10 10 gFreshW {} entryW (by decide) (by decide)

/-! ## C5 — the cache is written only on success -/

/-- Claim C5: a `solve` call that ends in an error leaves the cache mapping
exactly as it was before the call, at the solved key and at every other key;
only a successful solve writes to the cache. -/
theorem solve_error_preserves_cache
    (cfg : TurnstileConfig) (env : SolveEnv) (url ua : String)
    (tFast tRecheck tStart tWrite : Int) (g : GlobalState) (st : SolverState)
    (herr : (solve cfg env url ua tFast tRecheck tStart tWrite g st).1.isOk = false) :
    ((solve cfg env url ua tFast tRecheck tStart tWrite g st).2.1).cache = g.cache := by
  simp only [solve, solveLocked] at herr ⊢
  split at herr
  · simp [Except.isOk, Except.toBool] at herr
  · split at herr
    · simp [Except.isOk, Except.toBool] at herr
    · split at herr
      · simp [Except.isOk, Except.toBool] at herr
      · rfl

/-- Witness for C5: a concrete failing solve (the browser fails to open)
leaves a concrete empty cache unchanged. -/
theorem solve_error_preserves_cache_witness :
    ((solve {} (SolveEnv.mk (.error (.other "net down")) (fun _ =>
        AttemptEnv.mk (.ok false) (.ok ()) (.ok false) (fun _ => none) (.ok true))
        (.ok (some [])) (.ok ()))
      "https://a.example/x" "UA" 0 0 0 0 gEmptyW {}).2.1).cache = gEmptyW.cache :=
  solve_error_preserves_cache _ _ _ _ _ _ _ _ _ _ (by decide)

/-! ## C10 — cache-served calls do not touch the introspection state -/

/-- Claim C10: a `solve` call answered from the cache — whether by the
unlocked fast path or by the re-check under the lock — returns the cached
headers without entering the browser layer and leaves the solver's
introspection fields (`_status`, `_verification_start_time`, `_last_error`)
exactly as they were. -/
theorem cached_return_preserves_solver_state
    (cfg : TurnstileConfig) (env : SolveEnv) (url ua : String)
    (tFast tRecheck tStart tWrite : Int) (g : GlobalState) (st : SolverState)
    (e : CacheEntry)
    (hcache : g.cache (cacheKeyOf cfg url) = some e)
    (hfresh : tFast - e.timestamp < cfg.cache_timeout ∨
              tRecheck - e.timestamp < cfg.cache_timeout) :
    (solve cfg env url ua tFast tRecheck tStart tWrite g st).1 = .ok e.headers ∧
    (solve cfg env url ua tFast tRecheck tStart tWrite g st).2.2 = (st, false) := by
  by_cases hf : tFast - e.timestamp < cfg.cache_timeout
  · simp only [solve, hcache, if_pos hf]
    constructor <;> trivial
  · have hr : tRecheck - e.timestamp < cfg.cache_timeout := hfresh.resolve_left hf
    simp only [solve, solveLocked, hcache, if_neg hf, if_pos hr]
    constructor <;> trivial

/-- Witness for C10 through the in-lock re-check: the entry is stale at the
fast-path reading but fresh at the re-check reading. -/
theorem cached_return_preserves_solver_state_witness :
    (solve {} envIdleW "https://a.example/x" "UA" 400 100 100 100 gFreshW
      { status := "error", last_error := some (.other "old"),
        verification_start_time := some (-5) }).1 = .ok entryW.headers ∧
    (solve {} envIdleW "https://a.example/x" "UA" 400 100 100 100 gFreshW
      { status := "error", last_error := some (.other "old"),
        verification_start_time := some (-5) }).2.2 =
      ({ status := "error", last_error := some (.other "old"),
         verification_start_time := some (-5) }, false) :=
  cached_return_preserves_solver_state {} envIdleW "https://a.example/x" "UA"
    400 100 100 100 gFreshW _ entryW (by decide) (Or.inr (by decide))

/-! ## C7 — what the cache key depends on -/

/-- Counterexample to claim C7 as stated: the key is not a function of the
URL's *host* alone.  The two URLs below have the same host `a.example`
(`urlparse(...).hostname`) and the two proxies the claim itself equates have
the same extracted bare identity `1.2.3.4`, yet the cache keys differ,
because `_get_cache_key` uses `urlparse(url).netloc`, which keeps an
explicit port. -/
theorem cache_key_host_only_cex :
    urlHost "https://a.example/x" = urlHost "https://a.example:443/y" ∧
    get_proxy_ip (some "socks5://u:p@1.2.3.4:1080") =
      get_proxy_ip (some "http://v:q@1.2.3.4:8080") ∧
    get_cache_key "https://a.example/x"
        (get_proxy_ip (some "socks5://u:p@1.2.3.4:1080")) ≠
      get_cache_key "https://a.example:443/y"
        (get_proxy_ip (some "http://v:q@1.2.3.4:8080")) := by
  refine ⟨rfl, rfl, ?_⟩
  decide

/-- Claim C7 amended: the cache key is a function of the target URL's
netloc (authority: host plus any explicit port or userinfo) and the proxy's
extracted bare host (scheme, credentials and port stripped).  URLs equal up
to netloc and proxies equal up to bare host give equal keys; the claim's
own concrete pair is an instance. -/
theorem cache_key_netloc_proxyhost
    (url1 url2 proxy1 proxy2 : String)
    (hnet : urlparseNetloc url1 = urlparseNetloc url2)
    (hprox : get_proxy_ip (some proxy1) = get_proxy_ip (some proxy2)) :
    get_cache_key url1 (get_proxy_ip (some proxy1)) =
      get_cache_key url2 (get_proxy_ip (some proxy2)) := by
  simp only [get_cache_key, hnet, hprox]

/-- Witness for the amended C7 at the claim's own concrete pair: same-host
URLs differing only in path, proxies differing in scheme, credentials and
port. -/
theorem cache_key_netloc_proxyhost_witness :
    get_cache_key "https://a.example/x"
        (get_proxy_ip (some "socks5://u:p@1.2.3.4:1080")) =
      get_cache_key "https://a.example/y"
        (get_proxy_ip (some "http://v:q@1.2.3.4:8080")) :=
  cache_key_netloc_proxyhost "https://a.example/x" "https://a.example/y"
    "socks5://u:p@1.2.3.4:1080" "http://v:q@1.2.3.4:8080" rfl rfl

/-! ## C8 — malformed cookie records -/

/-- Counterexample to claim C8 as stated: a cookie list containing a record
without a `'name'` key does not raise; `_extract_headers` silently filters
the record out and builds a header set with an empty cookie string. -/
theorem malformed_cookie_no_error_cex :
    Cookie.wellFormed { name := none, value := some "v" } = false ∧
    (extract_headers {} (some [{ name := none, value := some "v" }])
        "https://a.example/x" "UA").isOk = true ∧
    headerGet ((extract_headers {} (some [{ name := none, value := some "v" }])
        "https://a.example/x" "UA").toOption.getD []) "cookie" = some "" := by
  refine ⟨rfl, rfl, ?_⟩
  decide

/-- Malformed records contribute nothing to the cookie pairs: extracting
from a cookie list is the same as extracting from its well-formed sublist. -/
theorem cookiePair_filterMap_filter (cs : List Cookie) :
    cs.filterMap cookiePair = (cs.filter Cookie.wellFormed).filterMap cookiePair := by
  induction cs with
  | nil => rfl
  | cons c rest ih =>
    rcases c with ⟨n, v⟩
    rcases n with _ | n <;> rcases v with _ | v <;>
      simp [List.filterMap_cons, List.filter_cons, cookiePair, Cookie.wellFormed,
        Option.isSome, ih]

/-- Claim C8 amended: a non-list cookies result raises `TurnstileError`
(the code's `FormatError`), but a list containing malformed records does not
raise — records lacking a name or a value are skipped by the comprehension's
filter, so the headers are exactly those built from the well-formed
records. -/
theorem extract_headers_filters_malformed :
    (∀ cfg : TurnstileConfig, ∀ url ua : String,
      extract_headers cfg none url ua =
        .error (.turnstile "获取到的Cookies格式不正确")) ∧
    (∀ cfg : TurnstileConfig, ∀ cs : List Cookie, ∀ url ua : String,
      extract_headers cfg (some cs) url ua =
        extract_headers cfg (some (cs.filter Cookie.wellFormed)) url ua) := by
  refine ⟨fun _ _ _ => rfl, fun cfg cs url ua => ?_⟩
  simp only [extract_headers, cookiePair_filterMap_filter cs]

/-- Witness for the amended C8: skipping the malformed record of the
counterexample list is the same as never having had it. -/
theorem extract_headers_filters_malformed_witness :
    extract_headers {} (some [{ name := none, value := some "v" },
        { name := some "a", value := some "b" }]) "https://a.example/x" "UA" =
      extract_headers {} (some ([{ name := none, value := some "v" },
        { name := some "a", value := some "b" }].filter Cookie.wellFormed))
        "https://a.example/x" "UA" :=
  extract_headers_filters_malformed.2 {} _ "https://a.example/x" "UA"

/-! ## C2 — click exhaustion is not fatal to the solve -/

/-- If every click raises, the click retry loop ends by raising
`TurnstileVerificationError` carrying the last click's message. -/
theorem clickLoop_all_fail (click : Nat → Option String) :
    ∀ fuel i, 0 < fuel → (∀ j, click j ≠ none) →
    ∃ m, clickLoop click i fuel =
      .error (.verification ("验证按钮点击失败: " ++ m)) := by
  intro fuel
  induction fuel with
  | zero => intro i h _; exact absurd h (by omega)
  | succ f ih =>
    intro i _ hcl
    cases hc : click i with
    | none => exact absurd hc (hcl i)
    | some m =>
      by_cases hf : f = 0
      · subst hf
        exact ⟨m, by simp [clickLoop, hc]⟩
      · obtain ⟨m', hm'⟩ := ih (i + 1) (Nat.pos_of_ne_zero hf) hcl
        exact ⟨m', by simp [clickLoop, hc, hf, hm']⟩

/-- An attempt whose first click attempt fails and keeps failing: the
challenge iframe and the verification button are found, every
`verify_element.click()` raises. -/
def attClickFailW : AttemptEnv :=
  { eles := .ok true, body := .ok (), verifyFound := .ok true,
    click := fun _ => some "boom", waitDeleted := .ok true }

/-- An attempt finding no challenge iframe (immediate success). -/
def attNoChallengeW : AttemptEnv :=
  { eles := .ok false, body := .ok (), verifyFound := .ok false,
    click := fun _ => none, waitDeleted := .ok true }

/-- Configuration for the C2 counterexample: two outer attempts, two click
attempts. -/
def cfgC2x : TurnstileConfig := { max_attempts := 2, click_max_attempts := 2 }

/-- Environment for the C2 counterexample: attempt 0 exhausts its clicks,
attempt 1 finds no challenge. -/
def envC2x : SolveEnv :=
  { pageOpen := .ok (),
    attempt := fun i => if i = 0 then attClickFailW else attNoChallengeW,
    cookies := .ok (some []),
    writeHeaders := .ok () }

/-- Counterexample to claim C2 as stated: with `click_max_attempts = 2` and
every click failing in attempt 0, the raised `TurnstileVerificationError` is
caught inside `_handle_verification`'s own `except` handler (recorded in
`_last_error`), the outer loop proceeds, attempt 1 runs and succeeds, and
the solve returns headers instead of raising — so click exhaustion is not
fatal for the solve run. -/
theorem click_exhaustion_not_fatal_cex :
    (solve_internal cfgC2x envC2x "https://a.example/x" "UA" 0 {}).1.isOk = true ∧
    (solve_internal cfgC2x envC2x "https://a.example/x" "UA" 0 {}).2.1.last_error =
      some (.verification ("验证按钮点击失败: " ++ "boom")) ∧
    (solve_internal cfgC2x envC2x "https://a.example/x" "UA" 0 {}).2.2 = 2 :=
  ⟨rfl, rfl, rfl⟩

/-- Claim C2 amended: clicking failing `click_max_attempts` consecutive
times raises `TurnstileVerificationError` *inside* `_handle_verification`,
whose blanket `except` catches it: the error is recorded in `_last_error`,
the attempt merely returns `False`, and the outer loop proceeds with the
next attempt — the failure is not fatal for the solve run. -/
theorem click_exhaustion_retries_next_attempt
    (cfg : TurnstileConfig) (env : SolveEnv) (url ua : String)
    (st : SolverState) (i fuel : Nat)
    (h1 : (env.attempt i).eles = .ok true)
    (h2 : (env.attempt i).body = .ok ())
    (h3 : (env.attempt i).verifyFound = .ok true)
    (hpos : 0 < cfg.click_max_attempts)
    (hclick : ∀ j, (env.attempt i).click j ≠ none) :
    ∃ m, attemptLoop cfg env url ua st i (fuel + 1) =
      attemptLoop cfg env url ua
        { st with status := "verifying",
                  last_error := some (.verification ("验证按钮点击失败: " ++ m)) }
        (i + 1) fuel := by
  obtain ⟨m, hm⟩ := clickLoop_all_fail (env.attempt i).click cfg.click_max_attempts 0
    hpos hclick
  refine ⟨m, ?_⟩
  simp only [attemptLoop, handle_verification, handleVerificationCore, h1, h2, h3, hm]

/-- Witness for the amended C2 at the counterexample's configuration. -/
theorem click_exhaustion_retries_next_attempt_witness :
    ∃ m, attemptLoop cfgC2x envC2x "https://a.example/x" "UA" {} 0 2 =
      attemptLoop cfgC2x envC2x "https://a.example/x" "UA"
        { status := "verifying",
          last_error := some (.verification ("验证按钮点击失败: " ++ m)),
          verification_start_time := none } 1 1 :=
  click_exhaustion_retries_next_attempt cfgC2x envC2x "https://a.example/x" "UA"
    {} 0 1 rfl rfl rfl (by decide) (fun _ => by simp [envC2x, attClickFailW])

/-! ## C3 — the wait-for-disappearance result is discarded -/

/-- An attempt in which the control is found and clicked but never
disappears: `wait.deleted` misses its deadline and (as DrissionPage does by
default) returns `False` without raising. -/
def attWaitNotDeletedW : AttemptEnv :=
  { eles := .ok true, body := .ok (), verifyFound := .ok true,
    click := fun _ => none, waitDeleted := .ok false }

/-- Environment for the C3 failing input. -/
def envC3x : SolveEnv :=
  { pageOpen := .ok (),
    attempt := fun _ => attWaitNotDeletedW,
    cookies := .ok (some [{ name := some "cf_clearance", value := some "tok" }]),
    writeHeaders := .ok () }

/-- Claim C3's failing input evaluated: the verification control never
disappears (`wait.deleted` returns `False` without raising), yet because
`_handle_verification` discards that return value the very first attempt is
counted as a success: the solve returns headers with status `"success"`
after one attempt, instead of failing the attempt and eventually raising
the attempts-exhausted error as the spec requires. -/
theorem wait_timeout_counted_as_success :
    (envC3x.attempt 0).waitDeleted = .ok false ∧
    (solve_internal {} envC3x "https://a.example/x" "UA" 0 {}).1.isOk = true ∧
    (solve_internal {} envC3x "https://a.example/x" "UA" 0 {}).2.1.status =
      "success" ∧
    (solve_internal {} envC3x "https://a.example/x" "UA" 0 {}).2.2 = 1 :=
  ⟨rfl, rfl, rfl, rfl⟩

/-! ## C4 — terminal status after exhausting all attempts -/

/-- An attempt in which the challenge iframe is present but the verification
button cannot be found: `_handle_verification` raises and catches
`TurnstileVerificationError`, failing the attempt. -/
def attNoButtonW : AttemptEnv :=
  { eles := .ok true, body := .ok (), verifyFound := .ok false,
    click := fun _ => none, waitDeleted := .ok true }

/-- Configuration for the C4 failing input: two outer attempts. -/
def cfgC4x : TurnstileConfig := { max_attempts := 2 }

/-- Environment for the C4 failing input: every attempt fails. -/
def envC4x : SolveEnv :=
  { pageOpen := .ok (),
    attempt := fun _ => attNoButtonW,
    cookies := .ok (some []),
    writeHeaders := .ok () }

/-- Claim C4's failing input evaluated: when all `max_attempts` attempts
fail, the code assigns `_status = "failed"` and raises `TurnstileError` —
but that raise happens inside the `try`, so the blanket
`except Exception` immediately overwrites the status with `"error"`,
records the attempts-exhausted error in `_last_error`, and re-raises it
wrapped.  The terminal status is `"error"`, not the `"failed"` the spec's
state machine prescribes; the `"failed"` assignment is dead. -/
theorem attempts_exhausted_terminal_status_error :
    solve_internal cfgC4x envC4x "https://a.example/x" "UA" 0 {} =
      (.error (.turnstile ("验证过程发生错误: " ++ "达到最大尝试次数，验证失败")),
       { status := "error",
         last_error := some (.turnstile "达到最大尝试次数，验证失败"),
         verification_start_time := some 0 }, 2) :=
  rfl

/-! ## C9 — a failing headers-file write fails the whole solve -/

/-- Configuration for the C9 counterexample: headers persisting enabled. -/
def cfgC9x : TurnstileConfig := { headers_output_path := some "headers.py" }

/-- Environment for the C9 counterexample: verification succeeds at once
(no challenge iframe), but `Path(...).write_text` raises. -/
def envC9x : SolveEnv :=
  { pageOpen := .ok (),
    attempt := fun _ => attNoChallengeW,
    cookies := .ok (some []),
    writeHeaders := .error (.other "Permission denied") }

/-- Counterexample to claim C9 as stated: the verification itself succeeds
(`_status` is even set to `"success"` first), but the `write_text` call
sits inside `_solve_internal`'s `try`, so its failure is caught by the
blanket `except Exception`, the status is overwritten with `"error"`, and
`solve` raises `TurnstileError` instead of returning the headers. -/
theorem headers_write_failure_fails_solve_cex :
    (solve cfgC9x envC9x "https://a.example/x" "UA" 0 0 0 0 gEmptyW {}).1 =
      .error (.turnstile ("验证过程发生错误: " ++ "Permission denied")) ∧
    (solve cfgC9x envC9x "https://a.example/x" "UA" 0 0 0 0 gEmptyW {}).2.2.1.status =
      "error" :=
  ⟨rfl, rfl⟩

/-- Claim C9 amended: with `headers_output_path` configured (nonempty), a
failure while persisting the produced header set propagates out of the
`try` block: the solve ends with the wrapped `TurnstileError`, status
`"error"`, the write error recorded in `_last_error`, and the headers are
not returned. -/
theorem headers_write_failure_propagates
    (cfg : TurnstileConfig) (env : SolveEnv) (url ua : String) (t : Int)
    (st : SolverState) (p : String) (cs : List Cookie) (e : PyErr)
    (hpath : cfg.headers_output_path = some p) (hp : ¬p = "")
    (hopen : env.pageOpen = .ok ())
    (hatt : (env.attempt 0).eles = .ok false)
    (hcook : env.cookies = .ok (some cs))
    (hwrite : env.writeHeaders = .error e)
    (hne : e ≠ .asyncTimeout)
    (hmax : 0 < cfg.max_attempts) :
    solve_internal cfg env url ua t st =
      (.error (.turnstile ("验证过程发生错误: " ++ pyStr e)),
       { st with verification_start_time := some t, status := "error",
                 last_error := some e }, 1) := by
  obtain ⟨n, hn⟩ : ∃ n, cfg.max_attempts = n + 1 :=
    ⟨cfg.max_attempts - 1, by omega⟩
  simp only [solve_internal, hopen, hn, attemptLoop, handle_verification,
    handleVerificationCore, hatt, hcook, extract_headers, hpath, hwrite,
    if_neg hp]

/-- Witness for the amended C9 at the counterexample's configuration. -/
theorem headers_write_failure_propagates_witness :
    solve_internal cfgC9x envC9x "https://a.example/x" "UA" 0 {} =
      (.error (.turnstile ("验证过程发生错误: " ++
         pyStr (.other "Permission denied"))),
       { status := "error", last_error := some (.other "Permission denied"),
         verification_start_time := some 0 }, 1) :=
  headers_write_failure_propagates cfgC9x envC9x "https://a.example/x" "UA" 0 {}
    "headers.py" [] (.other "Permission denied") rfl (by decide) rfl rfl rfl rfl
    (by decide) (by decide)

/-! ## C6 — the semaphore bound is per instance, not process-wide -/

/-- A config bounding concurrent tasks to one. -/
def cfgC6x : TurnstileConfig := { max_concurrent_tasks := 1 }

/-- Two solver instances, each built from `cfgC6x`, start browser runs for
two distinct cache keys. -/
def trC6x : List SysStep :=
  [.start 0 "a.example:direct", .start 1 "b.example:direct"]

/-- The state both starts reach. -/
def sC6x : SysState :=
  { instances := [{ cap := 1, semCount := 1 }, { cap := 1, semCount := 1 }],
    lockHeld := ["b.example:direct", "a.example:direct"] }

/-- Counterexample to claim C6 as stated: with two `TurnstileSolver`
instances each constructed with `max_concurrent_tasks = 1`, both starts are
enabled — each `__init__` created its own instance-level semaphore, so the
shared class-level declaration never bounds the process-wide total.  Two
browser-driving runs are active at once, exceeding the configured bound. -/
theorem semaphore_bound_not_processwide_cex :
    execTrace (initFromConfigs [cfgC6x, cfgC6x]) trC6x = some sC6x ∧
    activeTotal sC6x = 2 ∧
    ¬activeTotal sC6x ≤ cfgC6x.max_concurrent_tasks := by
  refine ⟨rfl, rfl, ?_⟩
  decide

/-- Per-instance semaphore safety: each instance's held permits never
exceed its own capacity. -/
def SemInv (s : SysState) : Prop :=
  ∀ i inst, s.instances.get? i = some inst → inst.semCount ≤ inst.cap

/-- One scheduler event preserves the per-instance permit bound. -/
theorem stepExec_preserves_semInv (s s' : SysState) (step : SysStep)
    (h : stepExec s step = some s') (hinv : SemInv s) : SemInv s' := by
  cases step with
  | start i key =>
    simp only [stepExec] at h
    cases hg : s.instances.get? i with
    | none => rw [hg] at h; exact absurd h (by simp)
    | some inst =>
      obtain ⟨hlt, -⟩ := List.get?_eq_some.mp hg
      rw [hg] at h
      dsimp only at h
      by_cases hk : key ∈ s.lockHeld
      · rw [if_pos hk] at h; exact absurd h (by simp)
      · rw [if_neg hk] at h
        by_cases hc : inst.semCount < inst.cap
        · rw [if_pos hc] at h
          obtain rfl := Option.some.inj h
          intro j instj hj
          by_cases hij : i = j
          · subst hij
            rw [List.get?_set_eq_of_lt _ hlt] at hj
            obtain rfl := Option.some.inj hj
            exact hc
          · rw [List.get?_set_ne _ _ hij] at hj
            exact hinv j instj hj
        · rw [if_neg hc] at h; exact absurd h (by simp)
  | finish i key =>
    simp only [stepExec] at h
    cases hg : s.instances.get? i with
    | none => rw [hg] at h; exact absurd h (by simp)
    | some inst =>
      obtain ⟨hlt, -⟩ := List.get?_eq_some.mp hg
      rw [hg] at h
      dsimp only at h
      by_cases hk : key ∈ s.lockHeld
      · rw [if_pos hk] at h
        by_cases hc : 0 < inst.semCount
        · rw [if_pos hc] at h
          obtain rfl := Option.some.inj h
          intro j instj hj
          by_cases hij : i = j
          · subst hij
            rw [List.get?_set_eq_of_lt _ hlt] at hj
            obtain rfl := Option.some.inj hj
            exact le_trans (Nat.sub_le _ _) (hinv i inst hg)
          · rw [List.get?_set_ne _ _ hij] at hj
            exact hinv j instj hj
        · rw [if_neg hc] at h; exact absurd h (by simp)
      · rw [if_neg hk] at h; exact absurd h (by simp)

/-- Running any event sequence preserves the per-instance permit bound. -/
theorem execTrace_preserves_semInv :
    ∀ (trace : List SysStep) (s₀ s : SysState),
      SemInv s₀ → execTrace s₀ trace = some s → SemInv s := by
  intro trace
  induction trace with
  | nil =>
    intro s₀ s hinv h
    obtain rfl := Option.some.inj h
    exact hinv
  | cons step rest ih =>
    intro s₀ s hinv h
    simp only [execTrace] at h
    cases hs : stepExec s₀ step with
    | none => rw [hs] at h; exact absurd h (by simp)
    | some s₁ =>
      rw [hs] at h
      exact ih s₁ s (stepExec_preserves_semInv s₀ s₁ step hs hinv) h

/-- Claim C6 amended: the semaphore bound is per solver instance, not
process-wide.  Each constructed `TurnstileSolver` owns the semaphore its
`__init__` created, so in any reachable state every instance holds at most
its own `max_concurrent_tasks` permits — while the process-wide total is
bounded only by the sum over instances (the counterexample reaches a total
above a single config's bound). -/
theorem semaphore_bound_per_instance
    (cfgs : List TurnstileConfig) (trace : List SysStep) (s : SysState)
    (h : execTrace (initFromConfigs cfgs) trace = some s) :
    ∀ i inst, s.instances.get? i = some inst → inst.semCount ≤ inst.cap := by
  refine execTrace_preserves_semInv trace (initFromConfigs cfgs) s ?_ h
  intro i inst hg
  simp only [initFromConfigs, List.get?_map] at hg
  cases hcfg : cfgs.get? i with
  | none => rw [hcfg] at hg; exact absurd hg (by simp)
  | some c =>
    rw [hcfg] at hg
    obtain rfl := Option.some.inj hg
    exact Nat.zero_le _

/-- Witness for the amended C6 at the counterexample's reachable state. -/
theorem semaphore_bound_per_instance_witness :
    execTrace (initFromConfigs [cfgC6x, cfgC6x]) trC6x = some sC6x ∧
    ∀ i inst, sC6x.instances.get? i = some inst → inst.semCount ≤ inst.cap :=
  ⟨rfl, semaphore_bound_per_instance [cfgC6x, cfgC6x] trC6x sC6x rfl⟩

end CFTurnstile
